import Mathlib

/-!
Shallow embedding of the OpenManus UI polling and message-reconstruction
logic (ChatArea.jsx, hooks/useLogPolling.js, MainContent.jsx), together
with theorems settling the frozen claims about it.

Modelling conventions:
* JS strings are Lean `String`s; `str.startsWith(p)` is embedded as a
  decidable prefix test on the character lists (`jsStartsWith`), and
  `str.replace(pat, '')` (which in JS removes only the first occurrence
  of a string pattern) is embedded as `jsRemoveFirst`.
* JS truthiness tests on nullable strings (`if (data.response)`,
  `if (currentStep)`) are embedded as `jsTruthy : Option String → Bool`,
  which is false exactly on `null`/absent and on the empty string.
* `Date` timestamps are not modelled (real time); every other field of
  the message objects is carried.
* React `setX(prev => ...)` updates are embedded as pure state
  transformers; a `useEffect` body becomes a function from its inputs and
  the current state to the next state.
-/

namespace OpenManusUI

/-- Embedding of JavaScript `s.startsWith(p)`: `p`'s characters are a
prefix of `s`'s characters. -/
def jsStartsWith (s p : String) : Bool :=
  decide (p.data <+: s.data)

/-- Auxiliary for `jsRemoveFirst`: split `s` around the first occurrence
of `pat`, returning the part before and the part after, or `none` when
`pat` does not occur in `s`. -/
def removeSplit (pat : List Char) : List Char → Option (List Char × List Char)
  | [] => none
  | c :: rest =>
    if pat.isPrefixOf (c :: rest) then
      some ([], (c :: rest).drop pat.length)
    else
      match removeSplit pat rest with
      | some (pre, post) => some (c :: pre, post)
      | none => none

/-- Embedding of JavaScript `s.replace(pat, '')` for a string pattern:
remove the first occurrence of `pat` from `s` (the source only ever
replaces with the empty string, and only with non-empty patterns). -/
def jsRemoveFirst (s pat : String) : String :=
  match removeSplit pat.data s.data with
  | some (pre, post) => ⟨pre ++ post⟩
  | none => s

/-- Embedding of a JavaScript truthiness test on a nullable string:
false on `null`/absent and on the empty string. -/
def jsTruthy : Option String → Bool
  | none => false
  | some s => !(s == "")

/-- A raw log entry as delivered by the `/logs` endpoint:
`{level, message}`. -/
structure LogEntry where
  level : String
  message : String
deriving Repr, DecidableEq

/-- A chat display message as built by ChatArea.jsx. Fields mirror the
JS object literals; absent JS fields are the defaults (JS `undefined` is
falsy). The `Date` timestamp is not modelled (real time). -/
structure DisplayMessage where
  content : String
  sender : String
  isStepMessage : Bool := false
  isQuestion : Bool := false
  isResponse : Bool := false
  step : Option String := none
deriving Repr, DecidableEq

/-! ## Log Poller (useLogPolling, src/hooks/useLogPolling.js) -/

/-- The state owned by the `useLogPolling` hook: the cursor `lastIndex`
and the accumulated `logs` list. -/
structure PollState where
  lastIndex : Nat
  logs : List LogEntry
deriving Repr, DecidableEq

/-- Initial hook state: `useState(0)`, `useState([])`. -/
def initPollState : PollState := { lastIndex := 0, logs := [] }

/-- Body of a `/logs` JSON response: an optional `logs` array and a
`next_index` field. -/
structure LogsResponse where
  logs : Option (List LogEntry)
  next_index : Nat
deriving Repr, DecidableEq

/-- Outcome of one poll's fetch: either a parsed response, or a failure
(the fetch rejected or the body failed to parse), which the source
catches and merely logs to the console. -/
inductive FetchResult where
  | ok (r : LogsResponse)
  | err
deriving Repr, DecidableEq

/-- The offset the next fetch carries in its URL
(`?last_index=${lastIndex}`). -/
def requestOffset (st : PollState) : Nat := st.lastIndex

/-- One execution of `pollLogs` given the fetch outcome: on success with
a non-empty `logs` array, append the entries and move the cursor to
`next_index`; otherwise (empty/absent array, or a caught failure) leave
the state untouched. -/
def pollLogs (st : PollState) (res : FetchResult) : PollState :=
  match res with
  | .err => st
  | .ok r =>
    match r.logs with
    | some ls => if ls.length > 0 then { lastIndex := r.next_index, logs := st.logs ++ ls } else st
    | none => st

/-- A sequence of poll ticks folded over the fetch outcomes. -/
def pollRun (st : PollState) (results : List FetchResult) : PollState :=
  results.foldl pollLogs st

/-- The cursor value the hook holds after a run of successful responses:
the `next_index` of the last response that carried at least one entry,
or the starting cursor when none did. -/
def lastEffectiveIndex (start : Nat) (rs : List LogsResponse) : Nat :=
  rs.foldl (fun acc r => if (r.logs.getD []).length > 0 then r.next_index else acc) start

/-- `resetLogs` from the hook: clear the list and zero the cursor. -/
def resetLogs (_st : PollState) : PollState := initPollState

theorem pollLogs_ok_append (st : PollState) (r : LogsResponse) (ls : List LogEntry)
    (hl : r.logs = some ls) (hne : ls.length > 0) :
    pollLogs st (.ok r) = { lastIndex := r.next_index, logs := st.logs ++ ls } := by
  simp [pollLogs, hl, hne]

theorem pollLogs_ok_empty (st : PollState) (r : LogsResponse)
    (h : r.logs = none ∨ r.logs = some []) :
    pollLogs st (.ok r) = st := by
  rcases h with h | h <;> simp [pollLogs, h]

theorem pollRun_logs_length (st : PollState) (rs : List LogsResponse) :
    (pollRun st (rs.map .ok)).logs.length
      = st.logs.length + (rs.map (fun r => (r.logs.getD []).length)).sum := by
  induction rs generalizing st with
  | nil => simp [pollRun]
  | cons r rest ih =>
    have hstep : ∀ s : PollState,
        (pollLogs s (.ok r)).logs.length = s.logs.length + (r.logs.getD []).length := by
      intro s
      cases hl : r.logs with
      | none => simp [pollLogs, hl]
      | some ls =>
        by_cases hne : ls.length > 0
        · simp [pollLogs, hl, hne]
        · simp at hne
          simp [pollLogs, hl, hne]
    have := ih (pollLogs st (.ok r))
    simp only [List.map_cons, pollRun, List.foldl_cons] at this ⊢
    rw [this, hstep]
    simp [List.sum_cons]
    omega

theorem pollRun_lastIndex (st : PollState) (rs : List LogsResponse) :
    (pollRun st (rs.map .ok)).lastIndex = lastEffectiveIndex st.lastIndex rs := by
  induction rs generalizing st with
  | nil => simp [pollRun, lastEffectiveIndex]
  | cons r rest ih =>
    simp only [List.map_cons, pollRun, List.foldl_cons, lastEffectiveIndex] at ih ⊢
    rw [ih (pollLogs st (.ok r))]
    cases hl : r.logs with
    | none => simp [pollLogs, hl]
    | some ls =>
      by_cases hne : ls.length > 0
      · simp [pollLogs, hl, hne]
      · simp at hne
        simp [pollLogs, hl, hne]

/-! ## Message Reconstructor (ChatArea.jsx log-processing effect) -/

/-- The three marker strings tested by the log-processing effect. -/
def stepMarker : String := "Executing step"

/-- Marker of a question from the agent to the user. -/
def askHumanMarker : String := "[ASK_HUMAN]"

/-- Marker of a relayed user response. -/
def userResponseMarker : String := "[USER_RESPONSE]"

/-- `shouldShowLog` from the effect: drop progress/telemetry entries. -/
def shouldShowLog (message : String) : Bool :=
  !(jsStartsWith message "开始处理任务")
    && !(jsStartsWith message "Token usage:")
    && !(jsStartsWith message "Session debug_url:")

/-- The bot message appended when flushing a step's accumulated bucket,
and also for entries arriving before any step (only `content` and
`sender` are set in the JS literal). -/
def plainBotMessage (m : String) : DisplayMessage :=
  { content := m, sender := "bot" }

/-- The message built for an `[ASK_HUMAN]` entry. -/
def questionMessage (q : String) : DisplayMessage :=
  { content := q, sender := "bot", isQuestion := true }

/-- The message built for a `[USER_RESPONSE]` entry. -/
def userResponseMessage (r : String) : DisplayMessage :=
  { content := r, sender := "user", isResponse := true }

/-- The message built for an `Executing step` entry; `step` carries the
previous `currentStep` value at the time of construction. -/
def stepHeaderMessage (m : String) (prev : Option String) : DisplayMessage :=
  { content := m, sender := "bot", isStepMessage := true, step := prev }

/-- The message built for a plain entry while a step is open. -/
def stepBodyMessage (m : String) (cur : Option String) : DisplayMessage :=
  { content := m, sender := "bot", step := cur }

/-- The state threaded through the log-processing effect's `forEach`:
the `messages` list being appended to, the effect-local `currentStep`
and `currentStepMessages` accumulator, and the `currentHumanQuestion`
state (set on `[ASK_HUMAN]` entries). -/
structure ProcState where
  messages : List DisplayMessage
  currentStep : Option String
  currentStepMessages : List String
  question : String
deriving Repr, DecidableEq

/-- One iteration of the `logs.forEach` body in the log-processing
effect of ChatArea.jsx. -/
def procStep (s : ProcState) (log : LogEntry) : ProcState :=
  if !shouldShowLog log.message then s
  else if jsStartsWith log.message askHumanMarker then
    let question := jsRemoveFirst log.message "[ASK_HUMAN] "
    { s with question := question,
             messages := s.messages ++ [questionMessage question] }
  else if jsStartsWith log.message userResponseMarker then
    { s with messages :=
        s.messages ++ [userResponseMessage (jsRemoveFirst log.message "[USER_RESPONSE] ")] }
  else if jsStartsWith log.message stepMarker then
    { messages := s.messages
        ++ (if jsTruthy s.currentStep && s.currentStepMessages.length > 0
            then s.currentStepMessages.map plainBotMessage else [])
        ++ [stepHeaderMessage log.message s.currentStep],
      currentStep := some log.message,
      currentStepMessages := [],
      question := s.question }
  else if jsTruthy s.currentStep then
    { s with currentStepMessages := s.currentStepMessages ++ [log.message],
             messages := s.messages ++ [stepBodyMessage log.message s.currentStep] }
  else
    { s with messages := s.messages ++ [plainBotMessage log.message] }

/-- One full run of the log-processing effect body over the whole `logs`
array, starting (as the effect does) from a fresh `currentStep = null`
and empty bucket, against the current `messages` state. -/
def processLogsRun (logs : List LogEntry) (msgs : List DisplayMessage) (q : String) :
    ProcState :=
  logs.foldl procStep { messages := msgs, currentStep := none, currentStepMessages := [], question := q }

/-! ## String-marker exclusion lemmas -/

theorem jsStartsWith_iff (s p : String) : jsStartsWith s p = true ↔ p.data <+: s.data :=
  decide_eq_true_iff

/-- Two string literals neither of which starts the other cannot both be
prefixes of the same message. -/
theorem startsWith_incompatible (m p q : String)
    (hne : ¬ q.data.take p.data.length = p.data.take q.data.length)
    (hp : jsStartsWith m p = true) : jsStartsWith m q = false := by
  rw [jsStartsWith_iff] at hp
  rw [jsStartsWith, decide_eq_false_iff_not]
  intro hq
  apply hne
  have h1 : p.data = m.data.take p.data.length := List.prefix_iff_eq_take.mp hp
  have h2 : q.data = m.data.take q.data.length := List.prefix_iff_eq_take.mp hq
  conv_lhs => rw [h2]
  conv_rhs => rw [h1]
  rw [List.take_take, List.take_take, Nat.min_comm]

theorem step_visible (m : String) (h : jsStartsWith m stepMarker = true) :
    shouldShowLog m = true := by
  unfold shouldShowLog
  rw [startsWith_incompatible m stepMarker "开始处理任务" (by decide) h,
      startsWith_incompatible m stepMarker "Token usage:" (by decide) h,
      startsWith_incompatible m stepMarker "Session debug_url:" (by decide) h]
  rfl

theorem step_not_ask (m : String) (h : jsStartsWith m stepMarker = true) :
    jsStartsWith m askHumanMarker = false :=
  startsWith_incompatible m stepMarker askHumanMarker (by decide) h

theorem step_not_userResponse (m : String) (h : jsStartsWith m stepMarker = true) :
    jsStartsWith m userResponseMarker = false :=
  startsWith_incompatible m stepMarker userResponseMarker (by decide) h

theorem userResponse_visible (m : String) (h : jsStartsWith m userResponseMarker = true) :
    shouldShowLog m = true := by
  unfold shouldShowLog
  rw [startsWith_incompatible m userResponseMarker "开始处理任务" (by decide) h,
      startsWith_incompatible m userResponseMarker "Token usage:" (by decide) h,
      startsWith_incompatible m userResponseMarker "Session debug_url:" (by decide) h]
  rfl

theorem userResponse_not_ask (m : String) (h : jsStartsWith m userResponseMarker = true) :
    jsStartsWith m askHumanMarker = false :=
  startsWith_incompatible m userResponseMarker askHumanMarker (by decide) h

/-! ## Branch characterisations of `procStep` -/

theorem procStep_of_step (s : ProcState) (e : LogEntry)
    (h : jsStartsWith e.message stepMarker = true) :
    procStep s e =
      { messages := s.messages
          ++ (if jsTruthy s.currentStep && s.currentStepMessages.length > 0
              then s.currentStepMessages.map plainBotMessage else [])
          ++ [stepHeaderMessage e.message s.currentStep],
        currentStep := some e.message,
        currentStepMessages := [],
        question := s.question } := by
  unfold procStep
  rw [step_visible e.message h, step_not_ask e.message h, step_not_userResponse e.message h, h]
  simp

theorem procStep_of_userResponse (s : ProcState) (e : LogEntry)
    (h : jsStartsWith e.message userResponseMarker = true) :
    procStep s e =
      { s with messages :=
          s.messages ++ [userResponseMessage (jsRemoveFirst e.message "[USER_RESPONSE] ")] } := by
  unfold procStep
  rw [userResponse_visible e.message h, userResponse_not_ask e.message h, h]
  simp

/-! ## Counting, bucket and append lemmas for the reconstructor -/

/-- The batch of messages one `forEach` iteration appends for entry `e`
in local state `s`. -/
def procDelta (s : ProcState) (e : LogEntry) : List DisplayMessage :=
  if !shouldShowLog e.message then []
  else if jsStartsWith e.message askHumanMarker then
    [questionMessage (jsRemoveFirst e.message "[ASK_HUMAN] ")]
  else if jsStartsWith e.message userResponseMarker then
    [userResponseMessage (jsRemoveFirst e.message "[USER_RESPONSE] ")]
  else if jsStartsWith e.message stepMarker then
    (if jsTruthy s.currentStep && s.currentStepMessages.length > 0
     then s.currentStepMessages.map plainBotMessage else [])
      ++ [stepHeaderMessage e.message s.currentStep]
  else if jsTruthy s.currentStep then
    [stepBodyMessage e.message s.currentStep]
  else
    [plainBotMessage e.message]

theorem procStep_messages_eq (s : ProcState) (e : LogEntry) :
    (procStep s e).messages = s.messages ++ procDelta s e := by
  by_cases h1 : shouldShowLog e.message
  · by_cases h2 : jsStartsWith e.message askHumanMarker = true
    · simp [procStep, procDelta, h1, h2]
    · by_cases h3 : jsStartsWith e.message userResponseMarker = true
      · simp [procStep, procDelta, h1, h2, h3]
      · by_cases h4 : jsStartsWith e.message stepMarker = true
        · simp [procStep, procDelta, h1, h2, h3, h4]
        · by_cases h5 : jsTruthy s.currentStep = true
          · simp [procStep, procDelta, h1, h2, h3, h4, h5]
          · simp [procStep, procDelta, h1, h2, h3, h4, h5]
  · simp [procStep, procDelta, h1]

theorem countP_isStep_flush (cond : Bool) (l : List String) :
    ((if cond = true then l.map plainBotMessage else []).countP fun m => m.isStepMessage) = 0 := by
  rw [List.countP_eq_zero]
  intro x hx
  cases cond with
  | false => simp at hx
  | true =>
    simp only [List.mem_map, if_pos] at hx
    obtain ⟨y, _, rfl⟩ := hx
    simp [plainBotMessage]

/-- The batch for entry `e` holds exactly one `isStepMessage`-tagged
message when `e` is a step marker, and none otherwise. -/
theorem procDelta_countP_isStep (s : ProcState) (e : LogEntry) :
    ((procDelta s e).countP fun m => m.isStepMessage)
      = (if jsStartsWith e.message stepMarker = true then 1 else 0) := by
  by_cases h4 : jsStartsWith e.message stepMarker = true
  · rw [if_pos h4]
    unfold procDelta
    rw [step_visible e.message h4, step_not_ask e.message h4,
        step_not_userResponse e.message h4, h4]
    simp only [Bool.not_true, Bool.false_eq_true, if_false, if_pos, List.countP_append,
      countP_isStep_flush]
    simp [stepHeaderMessage, List.countP_cons]
  · rw [if_neg h4]
    by_cases h1 : shouldShowLog e.message
    · by_cases h2 : jsStartsWith e.message askHumanMarker = true
      · simp [procDelta, h1, h2, questionMessage, List.countP_cons]
      · by_cases h3 : jsStartsWith e.message userResponseMarker = true
        · simp [procDelta, h1, h2, h3, userResponseMessage, List.countP_cons]
        · by_cases h5 : jsTruthy s.currentStep = true
          · simp [procDelta, h1, h2, h3, h4, h5, stepBodyMessage, List.countP_cons]
          · simp [procDelta, h1, h2, h3, h4, h5, plainBotMessage, List.countP_cons]
    · simp [procDelta, h1]

/-- Processing one entry adds exactly one `isStepMessage` message when
the entry is a step marker, and none otherwise. -/
theorem procStep_countP_isStep (s : ProcState) (e : LogEntry) :
    ((procStep s e).messages.countP fun m => m.isStepMessage)
      = (s.messages.countP fun m => m.isStepMessage)
        + (if jsStartsWith e.message stepMarker = true then 1 else 0) := by
  rw [procStep_messages_eq, List.countP_append, procDelta_countP_isStep]

theorem foldl_countP_isStep (logs : List LogEntry) (s : ProcState) :
    ((logs.foldl procStep s).messages.countP fun m => m.isStepMessage)
      = (s.messages.countP fun m => m.isStepMessage)
        + (logs.countP fun l => jsStartsWith l.message stepMarker) := by
  induction logs generalizing s with
  | nil => simp
  | cons e rest ih =>
    rw [List.foldl_cons, ih (procStep s e), procStep_countP_isStep, List.countP_cons]
    by_cases hstep : jsStartsWith e.message stepMarker = true
    · simp [hstep]
      omega
    · simp [hstep]

/-- The accumulation bucket never holds a step-marker line. -/
theorem procStep_bucket_not_step (s : ProcState) (e : LogEntry)
    (hinv : ∀ x ∈ s.currentStepMessages, jsStartsWith x stepMarker = false) :
    ∀ x ∈ (procStep s e).currentStepMessages, jsStartsWith x stepMarker = false := by
  unfold procStep
  split
  · exact hinv
  · split
    · exact hinv
    · split
      · exact hinv
      · split
        · intro x hx
          simp at hx
        · split
          · intro x hx
            simp only [List.mem_append, List.mem_singleton] at hx
            rcases hx with hx | rfl
            · exact hinv x hx
            · have hstep : ¬ jsStartsWith e.message stepMarker = true := by assumption
              exact Bool.not_eq_true _ ▸ (Bool.eq_false_iff.mpr hstep)
          · exact hinv

theorem foldl_bucket_not_step (logs : List LogEntry) (s : ProcState)
    (hinv : ∀ x ∈ s.currentStepMessages, jsStartsWith x stepMarker = false) :
    ∀ x ∈ (logs.foldl procStep s).currentStepMessages, jsStartsWith x stepMarker = false := by
  induction logs generalizing s with
  | nil => exact hinv
  | cons e rest ih =>
    rw [List.foldl_cons]
    exact ih (procStep s e) (procStep_bucket_not_step s e hinv)

/-- Processing an entry only appends to the message list. -/
theorem procStep_messages_append (s : ProcState) (e : LogEntry) :
    ∃ t, (procStep s e).messages = s.messages ++ t :=
  ⟨procDelta s e, procStep_messages_eq s e⟩

theorem foldl_messages_append (logs : List LogEntry) (s : ProcState) :
    ∃ t, (logs.foldl procStep s).messages = s.messages ++ t := by
  induction logs generalizing s with
  | nil => exact ⟨[], by simp⟩
  | cons e rest ih =>
    rw [List.foldl_cons]
    obtain ⟨t1, h1⟩ := procStep_messages_append s e
    obtain ⟨t2, h2⟩ := ih (procStep s e)
    exact ⟨t1 ++ t2, by rw [h2, h1, List.append_assoc]⟩

/-! ## UI state, Status Poller, send/respond (ChatArea.jsx, MainContent.jsx) -/

/-- The chat-relevant React state: ChatArea's `messages`,
`isAwaitingHuman`, `currentHumanQuestion` and `inputValue`, App's
`currentTaskId`, MainContent's `isLoading`, and the `useLogPolling`
hook state. -/
structure UiState where
  messages : List DisplayMessage
  currentTaskId : Option String
  isLoading : Bool
  isAwaitingHuman : Bool
  currentHumanQuestion : String
  inputValue : String
  poll : PollState
deriving Repr, DecidableEq

/-- The ChatArea greeting installed by `useState`. -/
def initialMessages : List DisplayMessage :=
  [{ content := "Привет! Я интеллектуальный помощник OpenAgent. Введите ваш вопрос или команду, и я постараюсь помочь.",
     sender := "bot", isStepMessage := true }]

/-- The initial UI state after mount. -/
def initUiState : UiState :=
  { messages := initialMessages, currentTaskId := none, isLoading := false,
    isAwaitingHuman := false, currentHumanQuestion := "", inputValue := "",
    poll := initPollState }

/-- The ChatArea log-processing `useEffect` body: bail out on an empty
list, otherwise fold the whole `logs` array, appending onto the current
`messages` state. -/
def uiLogsEffect (logs : List LogEntry) (st : UiState) : UiState :=
  if logs.length = 0 then st
  else
    let r := processLogsRun logs st.messages st.currentHumanQuestion
    { st with messages := r.messages, currentHumanQuestion := r.question }

/-- Body of a `/status` JSON response: `{status, response?}`. -/
structure StatusData where
  status : String
  response : Option String
deriving Repr, DecidableEq

/-- `handleStartLoading` in MainContent: raise the busy flag and reset
the log-polling hook. -/
def onStartLoading (st : UiState) : UiState :=
  { st with isLoading := true, poll := resetLogs st.poll }

/-- `handleStopLoading` in MainContent. -/
def onStopLoading (st : UiState) : UiState :=
  { st with isLoading := false }

/-- The branch dispatch of the status-polling interval callback on a
parsed response. -/
def pollStatusBody (data : StatusData) (st : UiState) : UiState :=
  if data.status = "awaiting_human" then
    { st with isAwaitingHuman := true,
              isLoading := if st.isLoading then false else st.isLoading }
  else if data.status = "completed" then
    { st with isAwaitingHuman := false, isLoading := false,
              messages := if jsTruthy data.response
                          then st.messages ++ [{ content := data.response.getD "", sender := "bot" }]
                          else st.messages,
              currentTaskId := none }
  else if data.status = "error" then
    { st with isAwaitingHuman := false, isLoading := false, currentTaskId := none }
  else st

/-- One status-poll tick: the interval exists only while `currentTaskId`
is truthy (the effect returns early otherwise, and clears the interval
when the id becomes null), so the tick is the identity when no task is
active. -/
def statusPollTick (data : StatusData) (st : UiState) : UiState :=
  if jsTruthy st.currentTaskId then pollStatusBody data st else st

/-- Whether the status-polling interval is installed. -/
def statusPollingActive (st : UiState) : Bool :=
  jsTruthy st.currentTaskId

/-- The `disabled` attribute of the chat input field. -/
def inputDisabled (st : UiState) : Bool :=
  st.isLoading && !st.isAwaitingHuman

/-- The optimistic placeholder appended when a new message is sent. -/
def thinkingMessage : DisplayMessage :=
  { content := "Думаю...", sender := "bot", isStepMessage := true }

/-- The echoed user message appended when a new message is sent. -/
def userChatMessage (text : String) : DisplayMessage :=
  { content := text, sender := "user" }

/-- Error notice for a failed `/human_response` POST. -/
def respondErrorMessage : DisplayMessage :=
  { content := "Ошибка при отправке ответа. Попробуйте снова.", sender := "bot" }

/-- Error notice for a failed `/send` POST. -/
def sendErrorMessage : DisplayMessage :=
  { content := "Ошибка при отправке запроса, попробуйте снова.", sender := "bot" }

/-- Body of the `/human_response` POST: `{task_id, response}`. -/
structure HumanResponseRequest where
  task_id : String
  response : String
deriving Repr, DecidableEq

/-- The request `handleSendMessage` posts on the answering branch. -/
def mkHumanResponseRequest (st : UiState) : HumanResponseRequest :=
  { task_id := st.currentTaskId.getD "", response := st.inputValue }

/-- `handleSendMessage`, answering branch, POST resolved: clear the
input, leave awaiting mode, restart loading (which resets the log
hook); nothing is appended to `messages`. -/
def respondSuccess (st : UiState) : UiState :=
  onStartLoading { st with inputValue := "", isAwaitingHuman := false }

/-- `handleSendMessage`, answering branch, POST rejected: append the
error notice only. -/
def respondFailure (st : UiState) : UiState :=
  { st with messages := st.messages ++ [respondErrorMessage] }

/-- `handleSendMessage`, new-conversation branch, up to the `/send`
POST: optimistic echo plus thinking placeholder, input cleared, loading
started. -/
def sendOptimistic (st : UiState) : UiState :=
  onStartLoading { st with
    messages := st.messages ++ [userChatMessage st.inputValue, thinkingMessage],
    inputValue := "" }

/-- `/send` resolved with a task id. -/
def sendSuccess (tid : String) (st : UiState) : UiState :=
  { sendOptimistic st with currentTaskId := some tid }

/-- `/send` rejected: the catch filters every bot-sender message out of
the current list, appends the error notice, and stops loading. -/
def sendFailure (st : UiState) : UiState :=
  onStopLoading { sendOptimistic st with
    messages := (sendOptimistic st).messages.filter (fun m => !(m.sender == "bot"))
                  ++ [sendErrorMessage] }

/-! ## Shared helper lemmas for the claim theorems -/

theorem statusPollTick_inactive (d : StatusData) (st : UiState)
    (h : st.currentTaskId = none) : statusPollTick d st = st := by
  simp [statusPollTick, h, jsTruthy]

theorem uiLogsEffect_messages_append (logs : List LogEntry) (st : UiState) :
    ∃ t, (uiLogsEffect logs st).messages = st.messages ++ t := by
  unfold uiLogsEffect
  split
  · exact ⟨[], by simp⟩
  · simp only [processLogsRun]
    obtain ⟨t, ht⟩ := foldl_messages_append logs
      { messages := st.messages, currentStep := none, currentStepMessages := [],
        question := st.currentHumanQuestion }
    exact ⟨t, ht⟩

theorem statusPollTick_messages_append (d : StatusData) (st : UiState) :
    ∃ t, (statusPollTick d st).messages = st.messages ++ t := by
  unfold statusPollTick pollStatusBody
  split
  · split
    · exact ⟨[], by simp⟩
    · split
      · split
        · exact ⟨_, rfl⟩
        · exact ⟨[], by simp⟩
      · split
        · exact ⟨[], by simp⟩
        · exact ⟨[], by simp⟩
  · exact ⟨[], by simp⟩

/-! ## Concrete states and inputs used by witnesses and counterexamples -/

/-- A state with an active task and the busy flag raised. -/
def stActiveExample : UiState :=
  { initUiState with currentTaskId := some "t1", isLoading := true }

/-- A fresh state with text typed into the input field. -/
def stSendExample : UiState :=
  { initUiState with inputValue := "hi" }

/-- A one-entry plain log list. -/
def helloLogs : List LogEntry := [⟨"INFO", "hello"⟩]

/-- A step header followed by a body line. -/
def stepLogs : List LogEntry := [⟨"INFO", "Executing step 1"⟩, ⟨"INFO", "hello"⟩]

/-- Two successful responses, the second carrying no entries but a
different `next_index`. -/
def emptyTailResponses : List LogsResponse :=
  [⟨some [⟨"INFO", "a"⟩], 5⟩, ⟨some [], 9⟩]

/-! ## Claim theorems -/

/-- Claim C2, counterexample: after two successful polls whose second
response carries an empty `logs` array with `next_index = 9`, the
cursor still holds the first response's `next_index = 5`, not the last
response's `next_index` as the claim states. -/
theorem cursor_ne_last_next_index :
    (pollRun initPollState (emptyTailResponses.map .ok)).lastIndex = 5
    ∧ (emptyTailResponses.getLastD ⟨none, 0⟩).next_index = 9
    ∧ (pollRun initPollState (emptyTailResponses.map .ok)).lastIndex
        ≠ (emptyTailResponses.getLastD ⟨none, 0⟩).next_index := by
  refine ⟨by decide, by decide, by decide⟩

/-- Claim C2 (amended): after N successful polls the accumulated log
list has grown by the total number of entries received, and the cursor
equals the `next_index` of the last response that carried at least one
entry (the starting cursor if none did). -/
theorem poll_accumulation_law (st : PollState) (rs : List LogsResponse) :
    (pollRun st (rs.map .ok)).logs.length
        = st.logs.length + (rs.map (fun r => (r.logs.getD []).length)).sum
    ∧ (pollRun st (rs.map .ok)).lastIndex = lastEffectiveIndex st.lastIndex rs :=
  ⟨pollRun_logs_length st rs, pollRun_lastIndex st rs⟩

/-- Claim C5: a failed log fetch is swallowed by the catch — the poller
state (cursor and accumulated list) is untouched and the next tick's
request carries the same offset. -/
theorem poll_failure_state_unchanged (st : PollState) :
    pollLogs st .err = st
    ∧ (pollLogs st .err).lastIndex = st.lastIndex
    ∧ (pollLogs st .err).logs = st.logs
    ∧ requestOffset (pollLogs st .err) = requestOffset st :=
  ⟨rfl, rfl, rfl, rfl⟩

/-- Claim C10: a successful poll whose response has an absent or empty
`logs` array leaves the poller state completely unchanged; in
particular its `next_index` does not advance the cursor. -/
theorem empty_poll_response_ignored (st : PollState) (r : LogsResponse)
    (h : r.logs = none ∨ r.logs = some []) :
    pollLogs st (.ok r) = st ∧ (pollLogs st (.ok r)).lastIndex = st.lastIndex := by
  have heq := pollLogs_ok_empty st r h
  exact ⟨heq, by rw [heq]⟩

/-- Claim C10, witness: a concrete empty response with `next_index = 42`
leaves a concrete poller state at cursor 3 unchanged. -/
theorem empty_poll_response_ignored_witness :
    ((⟨some [], 42⟩ : LogsResponse).logs = none ∨ (⟨some [], 42⟩ : LogsResponse).logs = some [])
    ∧ (pollLogs ⟨3, [⟨"INFO", "x"⟩]⟩ (.ok ⟨some [], 42⟩) = ⟨3, [⟨"INFO", "x"⟩]⟩
        ∧ (pollLogs ⟨3, [⟨"INFO", "x"⟩]⟩ (.ok ⟨some [], 42⟩)).lastIndex = 3) :=
  ⟨Or.inr rfl,
   empty_poll_response_ignored ⟨3, [⟨"INFO", "x"⟩]⟩ ⟨some [], 42⟩ (Or.inr rfl)⟩

/-- Claim C1 (the code violates it): the log-processing effect appends
the reconstruction of the whole `logs` array onto the existing
`messages` state on every run, so re-running it on the same one-entry
log list duplicates the reconstructed message instead of reproducing
the same DisplayMessage sequence. -/
theorem rerun_log_effect_duplicates :
    (uiLogsEffect helloLogs initUiState).messages
        = initialMessages ++ [plainBotMessage "hello"]
    ∧ (uiLogsEffect helloLogs (uiLogsEffect helloLogs initUiState)).messages
        = initialMessages ++ [plainBotMessage "hello", plainBotMessage "hello"]
    ∧ ¬ (uiLogsEffect helloLogs (uiLogsEffect helloLogs initUiState)).messages
        = (uiLogsEffect helloLogs initUiState).messages := by
  refine ⟨by decide, by decide, by decide⟩

/-- Claim C3: over any processed log sequence the reconstructed batch
holds exactly one `isStepMessage` message per step-marker entry, the
accumulation bucket never holds a step-marker line, and processing a
step-marker entry leaves a fresh (empty) bucket with `currentStep` set
to that entry while raising the step-header count by exactly one. -/
theorem step_marker_reconstruction (logs : List LogEntry) (msgs : List DisplayMessage)
    (q : String) (e : LogEntry) (h : jsStartsWith e.message stepMarker = true) :
    ((processLogsRun logs msgs q).messages.countP fun m => m.isStepMessage)
        = (msgs.countP fun m => m.isStepMessage)
          + (logs.countP fun l => jsStartsWith l.message stepMarker)
    ∧ (∀ x ∈ (processLogsRun logs msgs q).currentStepMessages,
          jsStartsWith x stepMarker = false)
    ∧ (procStep (processLogsRun logs msgs q) e).currentStep = some e.message
    ∧ (procStep (processLogsRun logs msgs q) e).currentStepMessages = []
    ∧ ((procStep (processLogsRun logs msgs q) e).messages.countP fun m => m.isStepMessage)
        = ((processLogsRun logs msgs q).messages.countP fun m => m.isStepMessage) + 1 := by
  refine ⟨?_, ?_, ?_, ?_, ?_⟩
  · simp only [processLogsRun]
    exact foldl_countP_isStep logs _
  · simp only [processLogsRun]
    exact foldl_bucket_not_step logs _ (by intro x hx; simp at hx)
  · rw [procStep_of_step _ e h]
  · rw [procStep_of_step _ e h]
  · rw [procStep_countP_isStep, if_pos h]

/-- Claim C3, witness: the property evaluated on a step header, a body
line, and a second step marker. -/
theorem step_marker_reconstruction_witness :
    jsStartsWith "Executing step 2" stepMarker = true
    ∧ (((processLogsRun stepLogs [] "").messages.countP fun m => m.isStepMessage)
          = (([] : List DisplayMessage).countP fun m => m.isStepMessage)
            + (stepLogs.countP fun l => jsStartsWith l.message stepMarker)
        ∧ (∀ x ∈ (processLogsRun stepLogs [] "").currentStepMessages,
              jsStartsWith x stepMarker = false)
        ∧ (procStep (processLogsRun stepLogs [] "") ⟨"INFO", "Executing step 2"⟩).currentStep
            = some "Executing step 2"
        ∧ (procStep (processLogsRun stepLogs [] "") ⟨"INFO", "Executing step 2"⟩).currentStepMessages
            = []
        ∧ ((procStep (processLogsRun stepLogs [] "") ⟨"INFO", "Executing step 2"⟩).messages.countP
              fun m => m.isStepMessage)
            = ((processLogsRun stepLogs [] "").messages.countP fun m => m.isStepMessage) + 1) :=
  ⟨by decide,
   step_marker_reconstruction stepLogs [] "" ⟨"INFO", "Executing step 2"⟩ (by decide)⟩

/-- Claim C4, counterexample: a `completed` status whose `response`
field is present but holds the empty string appends no message — the
code tests JS truthiness, not presence. -/
theorem completed_empty_response_no_append :
    (StatusData.mk "completed" (some "")).response.isSome = true
    ∧ (statusPollTick ⟨"completed", some ""⟩ stActiveExample).messages
        = stActiveExample.messages
    ∧ (statusPollTick ⟨"completed", some ""⟩ stActiveExample).currentTaskId = none := by
  refine ⟨by decide, by decide, by decide⟩

/-- Claim C4 (amended): observing `completed` with a nonempty response
appends exactly one final bot message carrying the response text,
clears the active task id, deactivates status polling, and leaves every
further status tick without effect. -/
theorem completed_appends_response (st : UiState) (r : String)
    (htask : jsTruthy st.currentTaskId = true) (hr : ¬ r = "") :
    (statusPollTick ⟨"completed", some r⟩ st).messages
        = st.messages ++ [{ content := r, sender := "bot" }]
    ∧ (statusPollTick ⟨"completed", some r⟩ st).currentTaskId = none
    ∧ statusPollingActive (statusPollTick ⟨"completed", some r⟩ st) = false
    ∧ ∀ d, statusPollTick d (statusPollTick ⟨"completed", some r⟩ st)
          = statusPollTick ⟨"completed", some r⟩ st := by
  have hbody : statusPollTick ⟨"completed", some r⟩ st
      = { st with isAwaitingHuman := false, isLoading := false,
                  messages := st.messages ++ [{ content := r, sender := "bot" }],
                  currentTaskId := none } := by
    have h1 : statusPollTick ⟨"completed", some r⟩ st = pollStatusBody ⟨"completed", some r⟩ st := by
      unfold statusPollTick
      rw [htask]
      simp
    have hrb : (r == "") = false := by
      simp [hr]
    rw [h1]
    simp [pollStatusBody, jsTruthy, hrb]
  refine ⟨by rw [hbody], by rw [hbody], by rw [hbody]; rfl, fun d => ?_⟩
  rw [hbody]
  exact statusPollTick_inactive d _ rfl

/-- Claim C4, witness: completion with response `"done"` appends exactly
one bot message with content `"done"`. -/
theorem completed_appends_response_witness :
    jsTruthy stActiveExample.currentTaskId = true
    ∧ ((statusPollTick ⟨"completed", some "done"⟩ stActiveExample).messages
          = stActiveExample.messages ++ [{ content := "done", sender := "bot" }]
        ∧ (statusPollTick ⟨"completed", some "done"⟩ stActiveExample).currentTaskId = none
        ∧ statusPollingActive (statusPollTick ⟨"completed", some "done"⟩ stActiveExample) = false
        ∧ ∀ d, statusPollTick d (statusPollTick ⟨"completed", some "done"⟩ stActiveExample)
              = statusPollTick ⟨"completed", some "done"⟩ stActiveExample) :=
  ⟨by decide, completed_appends_response stActiveExample "done" (by decide) (by decide)⟩

/-- Claim C6, counterexample: a failed `/send` POST deletes the greeting
(a bot message) from the message list even though no new task has
started — the catch filters every bot-sender message out. -/
theorem send_failure_deletes_bot_messages :
    initialMessages.getD 0 (plainBotMessage "") ∈ stSendExample.messages
    ∧ ¬ initialMessages.getD 0 (plainBotMessage "") ∈ (sendFailure stSendExample).messages
    ∧ (sendFailure stSendExample).currentTaskId = none := by
  refine ⟨by decide, by decide, by decide⟩

/-- Claim C6 (amended): every UI operation appends to the message list
without reordering or deleting, except the failed-send handler, which
removes exactly the bot-sender messages — keeping the survivors in
their original relative order (a sublist) — before appending the error
notice. -/
theorem messages_order_preserved :
    (∀ logs st, ∃ t, (uiLogsEffect logs st).messages = st.messages ++ t)
    ∧ (∀ d st, ∃ t, (statusPollTick d st).messages = st.messages ++ t)
    ∧ (∀ st, (respondSuccess st).messages = st.messages)
    ∧ (∀ st, (respondFailure st).messages = st.messages ++ [respondErrorMessage])
    ∧ (∀ st, (sendOptimistic st).messages
          = st.messages ++ [userChatMessage st.inputValue, thinkingMessage])
    ∧ (∀ tid st, (sendSuccess tid st).messages = (sendOptimistic st).messages)
    ∧ (∀ st, (sendFailure st).messages
          = ((sendOptimistic st).messages.filter fun m => !(m.sender == "bot"))
              ++ [sendErrorMessage])
    ∧ (∀ st, List.Sublist
          ((sendOptimistic st).messages.filter fun m => !(m.sender == "bot"))
          (sendOptimistic st).messages) :=
  ⟨uiLogsEffect_messages_append, statusPollTick_messages_append,
   fun _ => rfl, fun _ => rfl, fun _ => rfl, fun _ _ => rfl, fun _ => rfl,
   fun _ => List.filter_sublist _⟩

/-- Claim C7: observing `awaiting_human` for the active task marks the
UI as awaiting input, turns the busy flag off, leaves the input field
enabled and the task id in place, keeps status polling active, and
appends nothing. -/
theorem awaiting_human_keeps_polling (st : UiState) (d : StatusData)
    (htask : jsTruthy st.currentTaskId = true) (hstatus : d.status = "awaiting_human") :
    (statusPollTick d st).isAwaitingHuman = true
    ∧ (statusPollTick d st).isLoading = false
    ∧ inputDisabled (statusPollTick d st) = false
    ∧ (statusPollTick d st).currentTaskId = st.currentTaskId
    ∧ statusPollingActive (statusPollTick d st) = true
    ∧ (statusPollTick d st).messages = st.messages := by
  have hl : (if st.isLoading then false else st.isLoading) = false := by
    cases st.isLoading <;> rfl
  have hbody : statusPollTick d st
      = { st with isAwaitingHuman := true, isLoading := false } := by
    simp [statusPollTick, htask, pollStatusBody, hstatus, hl]
  refine ⟨by rw [hbody], by rw [hbody], by rw [hbody]; rfl, by rw [hbody], ?_, by rw [hbody]⟩
  rw [hbody]
  exact htask

/-- Claim C7, witness: the `awaiting_human` transition evaluated on a
concrete busy state with task `"t1"`. -/
theorem awaiting_human_keeps_polling_witness :
    jsTruthy stActiveExample.currentTaskId = true
    ∧ (StatusData.mk "awaiting_human" none).status = "awaiting_human"
    ∧ ((statusPollTick ⟨"awaiting_human", none⟩ stActiveExample).isAwaitingHuman = true
        ∧ (statusPollTick ⟨"awaiting_human", none⟩ stActiveExample).isLoading = false
        ∧ inputDisabled (statusPollTick ⟨"awaiting_human", none⟩ stActiveExample) = false
        ∧ (statusPollTick ⟨"awaiting_human", none⟩ stActiveExample).currentTaskId
            = stActiveExample.currentTaskId
        ∧ statusPollingActive (statusPollTick ⟨"awaiting_human", none⟩ stActiveExample) = true
        ∧ (statusPollTick ⟨"awaiting_human", none⟩ stActiveExample).messages
            = stActiveExample.messages) :=
  ⟨by decide, rfl,
   awaiting_human_keeps_polling stActiveExample ⟨"awaiting_human", none⟩ (by decide) rfl⟩

/-- Claim C8: observing `error` for the active task clears the task id,
deactivates status polling (every further tick is without effect), and
appends no message of any kind. -/
theorem error_stops_polling_no_message (st : UiState) (d : StatusData)
    (htask : jsTruthy st.currentTaskId = true) (hstatus : d.status = "error") :
    (statusPollTick d st).messages = st.messages
    ∧ (statusPollTick d st).currentTaskId = none
    ∧ statusPollingActive (statusPollTick d st) = false
    ∧ ∀ d', statusPollTick d' (statusPollTick d st) = statusPollTick d st := by
  have hbody : statusPollTick d st
      = { st with isAwaitingHuman := false, isLoading := false, currentTaskId := none } := by
    simp [statusPollTick, htask, pollStatusBody, hstatus]
  refine ⟨by rw [hbody], by rw [hbody], by rw [hbody]; rfl, fun d' => ?_⟩
  rw [hbody]
  exact statusPollTick_inactive d' _ rfl

/-- Claim C8, witness: the `error` transition evaluated on a concrete
busy state with task `"t1"`. -/
theorem error_stops_polling_no_message_witness :
    jsTruthy stActiveExample.currentTaskId = true
    ∧ (StatusData.mk "error" none).status = "error"
    ∧ ((statusPollTick ⟨"error", none⟩ stActiveExample).messages = stActiveExample.messages
        ∧ (statusPollTick ⟨"error", none⟩ stActiveExample).currentTaskId = none
        ∧ statusPollingActive (statusPollTick ⟨"error", none⟩ stActiveExample) = false
        ∧ ∀ d', statusPollTick d' (statusPollTick ⟨"error", none⟩ stActiveExample)
              = statusPollTick ⟨"error", none⟩ stActiveExample) :=
  ⟨by decide, rfl,
   error_stops_polling_no_message stActiveExample ⟨"error", none⟩ (by decide) rfl⟩

/-- A state awaiting a human answer with `"yes"` typed in. -/
def respondStateExample : UiState :=
  { initUiState with currentTaskId := some "t1", isAwaitingHuman := true, inputValue := "yes" }

/-- A fresh reconstructor state. -/
def procStateExample : ProcState :=
  { messages := [], currentStep := none, currentStepMessages := [], question := "" }

/-- Claim C9: answering a pending question posts the current task id and
input text, appends nothing locally on success, and the text resurfaces
only when the Reconstructor meets a `[USER_RESPONSE]` log entry, which
becomes one message with `sender = "user"` and `isResponse = true`. -/
theorem respond_not_appended_locally (st : UiState) (tid : String)
    (s : ProcState) (e : LogEntry)
    (htid : st.currentTaskId = some tid)
    (hresp : jsStartsWith e.message userResponseMarker = true) :
    (respondSuccess st).messages = st.messages
    ∧ mkHumanResponseRequest st = ⟨tid, st.inputValue⟩
    ∧ (procStep s e).messages
        = s.messages ++ [userResponseMessage (jsRemoveFirst e.message "[USER_RESPONSE] ")]
    ∧ (userResponseMessage (jsRemoveFirst e.message "[USER_RESPONSE] ")).sender = "user"
    ∧ (userResponseMessage (jsRemoveFirst e.message "[USER_RESPONSE] ")).isResponse = true := by
  refine ⟨rfl, ?_, ?_, rfl, rfl⟩
  · simp [mkHumanResponseRequest, htid]
  · rw [procStep_of_userResponse s e hresp]

/-- Claim C9, witness: answering `"yes"` on task `"t1"` and the later
`[USER_RESPONSE] yes` log entry, evaluated concretely. -/
theorem respond_not_appended_locally_witness :
    respondStateExample.currentTaskId = some "t1"
    ∧ jsStartsWith "[USER_RESPONSE] yes" userResponseMarker = true
    ∧ ((respondSuccess respondStateExample).messages = respondStateExample.messages
        ∧ mkHumanResponseRequest respondStateExample = ⟨"t1", respondStateExample.inputValue⟩
        ∧ (procStep procStateExample ⟨"INFO", "[USER_RESPONSE] yes"⟩).messages
            = procStateExample.messages
              ++ [userResponseMessage (jsRemoveFirst "[USER_RESPONSE] yes" "[USER_RESPONSE] ")]
        ∧ (userResponseMessage (jsRemoveFirst "[USER_RESPONSE] yes" "[USER_RESPONSE] ")).sender
            = "user"
        ∧ (userResponseMessage (jsRemoveFirst "[USER_RESPONSE] yes" "[USER_RESPONSE] ")).isResponse
            = true) :=
  ⟨rfl, by decide,
   respond_not_appended_locally respondStateExample "t1" procStateExample
     ⟨"INFO", "[USER_RESPONSE] yes"⟩ rfl (by decide)⟩

end OpenManusUI
